import Mathlib

/-!
Verification of the Zoho-to-VSDC invoice relay (transform / submit / interpret
pipeline). The Python source is shallowly embedded: money amounts are rationals
with explicit 2-decimal rounding, dictionaries become structures with `Option`
fields (a missing key is `none`), Python truthiness of strings is `≠ ""`,
exceptions become `Except String`, and the wall clock is passed explicitly as a
`Clock` value. String operations are re-implemented structurally on character
lists so that every definition evaluates by kernel reduction.
-/

namespace VsdcRelay

/-! ## String helpers (structural re-implementations of Python str methods) -/

/-- Python str.strip: drop leading and trailing whitespace. -/
def strip (s : String) : String :=
  String.mk (((s.data.dropWhile Char.isWhitespace).reverse.dropWhile Char.isWhitespace).reverse)

/-- Python truthiness of an optional string field: present and non-empty. -/
def truthy (o : Option String) : Bool :=
  o.getD "" ≠ ""

/-- Numeric value of a list of decimal digit characters (int of the digits). -/
def digitsToNat (l : List Char) : ℕ :=
  l.foldl (fun n c => 10 * n + (c.toNat - 48)) 0

/-- Python int(s) on a string of decimal digits. -/
def strToNat (s : String) : ℕ :=
  digitsToNat s.data

/-- Maximal runs of consecutive digits in a character list, left to right;
the accumulator holds the current run reversed. -/
def digitRunsAux : List Char → List Char → List (List Char)
  | [], acc => if acc.isEmpty then [] else [acc.reverse]
  | c :: cs, acc =>
    if c.isDigit then digitRunsAux cs (c :: acc)
    else if acc.isEmpty then digitRunsAux cs []
    else acc.reverse :: digitRunsAux cs []

/-- Python re.findall of one-or-more-digit runs: all maximal digit runs of a string. -/
def digitRuns (s : String) : List String :=
  (digitRunsAux s.data []).map String.mk

/-- Python max(parts, key=len): first run of greatest length (ties keep the earlier). -/
def longestRun (parts : List String) : String :=
  parts.foldl (fun best p => if p.length > best.length then p else best) ""

/-- Split a character list on a separator character (Python str.split(sep)). -/
def splitOnChar (sep : Char) : List Char → List (List Char)
  | [] => [[]]
  | c :: cs =>
    if c = sep then [] :: splitOnChar sep cs
    else
      match splitOnChar sep cs with
      | [] => [[c]]
      | r :: rs => (c :: r) :: rs

/-- Python str.split() with no argument: split on whitespace runs, dropping empties. -/
def splitWhitespace (s : String) : List String :=
  ((s.data.splitOnP Char.isWhitespace).map String.mk).filter (fun p => p ≠ "")

/-- Zero-pad a natural number to two decimal digits (Python format 02d). -/
def pad2 (n : ℕ) : String :=
  if n < 10 then "0" ++ toString n else toString n

/-- Zero-pad a natural number to four decimal digits (strftime Y field). -/
def pad4 (n : ℕ) : String :=
  if n < 10 then "000" ++ toString n
  else if n < 100 then "00" ++ toString n
  else if n < 1000 then "0" ++ toString n
  else toString n

/-! ## The wall clock

The Python code reads datetime.now() in several formats. The embedding passes
the formatted values in explicitly, so that clock dependence is visible in the
types. -/

/-- Formatted snapshots of datetime.now() used by the pipeline. -/
structure Clock where
  /-- strftime m-d-H-M, the 8-digit string whose int is the numeric fallback. -/
  mdHM : String
  /-- strftime Y-m-d without separators (8-digit date). -/
  ymd : String
  /-- strftime Y-m-d-H-M-S without separators (14-digit timestamp). -/
  ymdhms : String
  /-- strftime Y-m-d with dashes. -/
  ymdDash : String
deriving Repr, DecidableEq

/-! ## Rounding and the tax calculator (src/utils/tax_calculator.py) -/

/-- Python round(x, 2) modelled on rationals: round half up to 2 decimals. -/
def round2 (q : ℚ) : ℚ :=
  ((round (q * 100) : ℤ) : ℚ) / 100

/-- calculate_tax(price, tax_rate): VAT extracted from a tax-inclusive price,
round(price * rate / (100 + rate), 2); zero rate gives 0. -/
def calculate_tax (price : ℚ) (tax_rate : ℚ) : ℚ :=
  if tax_rate = 0 then 0 else round2 (price * tax_rate / (100 + tax_rate))

/-! ## Source-document data model (the Zoho payload as a typed record) -/

/-- One entry of a Zoho line_items list. -/
structure ZohoLineItem where
  name : Option String
  description : Option String
  item_id : Option String
  item_class_code : Option String
  rate : Option ℚ
  quantity : Option ℚ
deriving Repr, DecidableEq

/-- Fields read by extract_business_info, shared by invoices and credit notes. -/
structure ZohoOrgFields where
  organization_name : Option String
  company_name : Option String
  billing_attention : Option String
  billing_addr : Option String
  billing_street : Option String
deriving Repr, DecidableEq

/-- A Zoho invoice record: the fields the transformer reads. Custom-field
dictionaries are flattened to their relevant keys; the list forms keep
(api_name, value) pairs. -/
structure ZohoInvoice extends ZohoOrgFields where
  invoice_number : Option String
  customer_name : Option String
  date : Option String
  invoice_date : Option String
  cf_tin : Option String
  cf_customer_tin : Option String
  cf_purchase_code : Option String
  custom_fields : List (String × String)
  cf_custtin_customer : Option String
  customer_custom_fields : List (String × String)
  contact_persons : List (Option String × Option String)
  line_items : List ZohoLineItem
deriving Repr, DecidableEq

/-- A ZohoInvoice with every field absent (an empty dict). -/
def emptyZohoInvoice : ZohoInvoice :=
  { organization_name := none, company_name := none, billing_attention := none
    billing_addr := none, billing_street := none
    invoice_number := none, customer_name := none, date := none, invoice_date := none
    cf_tin := none, cf_customer_tin := none, cf_purchase_code := none
    custom_fields := [], cf_custtin_customer := none, customer_custom_fields := []
    contact_persons := [], line_items := [] }

/-- The inbound webhook body: either a document nested under the invoice key,
or the document fields directly at top level. -/
structure ZohoPayload where
  invoice : Option ZohoInvoice
  top : ZohoInvoice
deriving Repr, DecidableEq

/-- zoho_payload.get invoice-key with the payload itself as default. -/
def ZohoPayload.invoiceData (p : ZohoPayload) : ZohoInvoice :=
  p.invoice.getD p.top

/-- A Zoho credit-note record: the fields the credit-note transformer reads.
invoices_credited is a list of records, each contributing an optional
invoice_number. -/
structure ZohoCreditNote extends ZohoOrgFields where
  creditnote_number : Option String
  invoices_credited : Option (List (Option String))
  customer_name : Option String
  date : Option String
  notes : Option String
  customer_mobile : Option String
  cf_tin : Option String
  cf_customer_tin : Option String
  cf_purchase_code : Option String
  custom_fields : List (String × String)
  line_items : List ZohoLineItem
deriving Repr, DecidableEq

/-- A ZohoCreditNote with every field absent (an empty dict). -/
def emptyZohoCreditNote : ZohoCreditNote :=
  { organization_name := none, company_name := none, billing_attention := none
    billing_addr := none, billing_street := none
    creditnote_number := none, invoices_credited := none, customer_name := none
    date := none, notes := none, customer_mobile := none
    cf_tin := none, cf_customer_tin := none, cf_purchase_code := none
    custom_fields := [], line_items := [] }

/-- The credit-note webhook body: the creditnote key may be absent. -/
def CreditNotePayload : Type := Option ZohoCreditNote

/-! ## Outbound fiscal submission record (the VSDC payload) -/

/-- One itemList entry of the VSDC payload. -/
structure VsdcItem where
  itemSeq : ℕ
  itemCd : String
  itemClsCd : String
  itemNm : String
  pkgUnitCd : String
  pkg : ℕ
  qtyUnitCd : String
  qty : ℚ
  prc : ℚ
  splyAmt : ℚ
  dcRt : ℚ
  dcAmt : ℚ
  taxTyCd : String
  taxblAmt : ℚ
  taxAmt : ℚ
  totAmt : ℚ
deriving Repr, DecidableEq

/-- The receipt sub-record of the VSDC payload. -/
structure VsdcReceipt where
  custTin : Option String
  custMblNo : Option String
  rptNo : ℕ
  trdeNm : String
  adrs : String
  topMsg : String
  btmMsg : String
  prchrAcptcYn : String
deriving Repr, DecidableEq

/-- The complete VSDC submission record built by the transformer. -/
structure VsdcPayload where
  tin : Option String
  bhfId : String
  invcNo : ℕ
  orgInvcNo : ℕ
  custTin : Option String
  prcOrdCd : Option String
  custNm : String
  salesTyCd : String
  rcptTyCd : String
  pmtTyCd : String
  salesSttsCd : String
  cfmDt : String
  salesDt : String
  stockRlsDt : String
  rfdDt : Option String
  rfdRsnCd : Option String
  totItemCnt : ℕ
  taxblAmtA : ℚ
  taxblAmtB : ℚ
  taxblAmtC : ℚ
  taxblAmtD : ℚ
  taxRtA : ℚ
  taxRtB : ℚ
  taxRtC : ℚ
  taxRtD : ℚ
  taxAmtA : ℚ
  taxAmtB : ℚ
  taxAmtC : ℚ
  taxAmtD : ℚ
  totTaxblAmt : ℚ
  totTaxAmt : ℚ
  totAmt : ℚ
  prchrAcptcYn : String
  remark : Option String
  regrId : String
  regrNm : String
  modrId : String
  modrNm : String
  receipt : VsdcReceipt
  itemList : List VsdcItem
deriving Repr, DecidableEq

/-! ## Document number resolver (extract_invoice_number_safely) -/

/-- extract_invoice_number_safely: a purely numeric (stripped) string is parsed
directly; otherwise the first maximal digit run of length at least 3 is taken,
else the longest run; with no digits at all the clock-derived 8-digit number is
used. -/
def extract_invoice_number_safely (clock : Clock) (invoice_number_raw : String) : ℕ :=
  let original_number := strip invoice_number_raw
  if original_number ≠ "" ∧ original_number.data.all Char.isDigit then
    strToNat original_number
  else
    let numeric_parts := digitRuns original_number
    if numeric_parts ≠ [] then
      match numeric_parts.find? (fun part => decide (3 ≤ part.length)) with
      | some part => strToNat part
      | none => strToNat (longestRun numeric_parts)
    else
      strToNat clock.mdHM

/-- The transformer truncates document numbers above 9 digits to their last 9
digits (int of str(n) sliced to the final 9 characters). -/
def clamp_invoice_number (n : ℕ) : ℕ :=
  if n > 999999999 then n % 1000000000 else n

/-! ## Validation (validate_required_fields in src/utils/tax_calculator.py) -/

/-- Python item.get name or item.get description-with-empty-default: the name
when truthy, else the description or empty string. -/
def itemNameOrDescription (it : ZohoLineItem) : String :=
  if truthy it.name then it.name.getD "" else it.description.getD ""

/-- Per-item loop of validate_required_fields, carrying the 0-based index used
in error messages. -/
def validate_items : ℕ → List ZohoLineItem → Except String Unit
  | _, [] => .ok ()
  | idx, it :: rest =>
    if strip (itemNameOrDescription it) = "" then
      .error ("Item " ++ toString (idx + 1) ++ " must have a name or description")
    else if it.rate = none ∨ it.rate.getD 0 ≤ 0 then
      .error ("Item " ++ toString (idx + 1) ++ " must have a valid rate/price")
    else validate_items (idx + 1) rest

/-- validate_required_fields: non-empty invoice number, at least one line item,
each item named and with a truthy positive rate. Quantities are not checked. -/
def validate_required_fields (p : ZohoPayload) : Except String Unit :=
  let invoice_data := p.invoiceData
  if strip (invoice_data.invoice_number.getD "") = "" then
    .error "Invoice number must be a non-empty string"
  else if invoice_data.line_items = [] then
    .error "Invoice must contain at least one line item"
  else validate_items 0 invoice_data.line_items

/-! ## Custom-field fallback chains for TINs and the purchase code -/

/-- One pass of the custom_fields fallback loop for a single key: a matching
(api_name, value) pair overwrites the current value only while it is falsy. -/
def fallback_list (cur : Option String) (key : String) : List (String × String) → Option String
  | [] => cur
  | f :: rest =>
    if f.1 = key ∧ ¬ truthy cur then fallback_list (some f.2) key rest
    else fallback_list cur key rest

/-- Python if-v: v = v.strip(): strip only a truthy value. -/
def strip_opt (o : Option String) : Option String :=
  if truthy o then o.map strip else o

/-- Python v-if-truthy-else-None: a falsy value becomes None. -/
def noneIfFalsy (o : Option String) : Option String :=
  if truthy o then o else none

/-- Customer-TIN extra fallback: the customer-scoped custom-field hash under
its own key, then the first matching entry of customer_custom_fields. -/
def customer_tin_fallback (cur : Option String) (d : ZohoInvoice) : Option String :=
  if truthy cur then cur
  else
    let cur2 := d.cf_custtin_customer
    if truthy cur2 then cur2
    else
      match d.customer_custom_fields.find? (fun f => f.1 = "cf_custtin") with
      | some f => some f.2
      | none => cur2

/-! ## Business info and dates -/

/-- extract_business_info: organization_name if the key is present, overridden
by a truthy billing attention, overridden by company_name if present; the
address prefers billing address then street. -/
def extract_business_info (d : ZohoOrgFields) : String × String :=
  let n1 := match d.organization_name with
    | some v => v
    | none => "Unknown Business"
  let n2 := if truthy d.billing_attention then d.billing_attention.getD "" else n1
  let business_name := match d.company_name with
    | some v => v
    | none => n2
  let business_address :=
    if truthy d.billing_addr then d.billing_addr.getD ""
    else if truthy d.billing_street then d.billing_street.getD ""
    else "Unknown Address"
  (business_name, business_address)

/-- Gregorian leap year. -/
def is_leap (y : ℕ) : Bool :=
  y % 4 = 0 ∧ (y % 100 ≠ 0 ∨ y % 400 = 0)

/-- Days in a month, as validated by the datetime constructor. -/
def days_in_month (y m : ℕ) : ℕ :=
  if m = 2 then (if is_leap y then 29 else 28)
  else if m = 4 ∨ m = 6 ∨ m = 9 ∨ m = 11 then 30
  else 31

/-- strptime with format Y-m-d: a 4-digit year of at least 1, a 1-2 digit month
in 1..12 and a 1-2 digit day valid for that month, separated by dashes. -/
def parse_ymd (s : String) : Option (ℕ × ℕ × ℕ) :=
  match (splitOnChar '-' s.data).map String.mk with
  | [ys, ms, ds] =>
    if ys.length = 4 ∧ ys.data.all Char.isDigit ∧
       1 ≤ ms.length ∧ ms.length ≤ 2 ∧ ms.data.all Char.isDigit ∧
       1 ≤ ds.length ∧ ds.length ≤ 2 ∧ ds.data.all Char.isDigit then
      let y := strToNat ys
      let m := strToNat ms
      let d := strToNat ds
      if 1 ≤ y ∧ 1 ≤ m ∧ m ≤ 12 ∧ 1 ≤ d ∧ d ≤ days_in_month y m then
        some (y, m, d)
      else none
    else none
  | _ => none

/-- strptime with format d/m/Y. -/
def parse_dmy (s : String) : Option (ℕ × ℕ × ℕ) :=
  match (splitOnChar '/' s.data).map String.mk with
  | [ds, ms, ys] =>
    if ys.length = 4 ∧ ys.data.all Char.isDigit ∧
       1 ≤ ms.length ∧ ms.length ≤ 2 ∧ ms.data.all Char.isDigit ∧
       1 ≤ ds.length ∧ ds.length ≤ 2 ∧ ds.data.all Char.isDigit then
      let y := strToNat ys
      let m := strToNat ms
      let d := strToNat ds
      if 1 ≤ y ∧ 1 ≤ m ∧ m ≤ 12 ∧ 1 ≤ d ∧ d ≤ days_in_month y m then
        some (y, m, d)
      else none
    else none
  | _ => none

/-- strptime with format m/d/Y. -/
def parse_mdy (s : String) : Option (ℕ × ℕ × ℕ) :=
  match (splitOnChar '/' s.data).map String.mk with
  | [ms, ds, ys] =>
    if ys.length = 4 ∧ ys.data.all Char.isDigit ∧
       1 ≤ ms.length ∧ ms.length ≤ 2 ∧ ms.data.all Char.isDigit ∧
       1 ≤ ds.length ∧ ds.length ≤ 2 ∧ ds.data.all Char.isDigit then
      let y := strToNat ys
      let m := strToNat ms
      let d := strToNat ds
      if 1 ≤ y ∧ 1 ≤ m ∧ m ≤ 12 ∧ 1 ≤ d ∧ d ≤ days_in_month y m then
        some (y, m, d)
      else none
    else none
  | _ => none

/-- strftime Y-m-d without separators on a parsed date. -/
def format_ymd8 : ℕ × ℕ × ℕ → String
  | (y, m, d) => pad4 y ++ pad2 m ++ pad2 d

/-- Sales-date resolution of the invoice transformer: take the first
whitespace-separated token of the raw date and try the formats Y-m-d, d/m/Y,
m/d/Y in order (the fourth configured format contains a space and can never
match a whitespace-free token); every failure falls back to the current date. -/
def resolve_sales_date (clock : Clock) (raw : Option String) : String :=
  match raw with
  | none => clock.ymd
  | some s =>
    if s = "" then clock.ymd
    else
      match (splitWhitespace s).head? with
      | none => clock.ymd
      | some tok =>
        match parse_ymd tok with
        | some ymd => format_ymd8 ymd
        | none =>
          match parse_dmy tok with
          | some ymd => format_ymd8 ymd
          | none =>
            match parse_mdy tok with
            | some ymd => format_ymd8 ymd
            | none => clock.ymd

/-! ## Line-item processing (the per-item loop of both transformers) -/

/-- Taxable amount of a line item: round(rate * quantity, 2) with Python
defaults rate 0 and quantity 1. -/
def item_supply (it : ZohoLineItem) : ℚ :=
  round2 (it.rate.getD 0 * it.quantity.getD 1)

/-- Per-item VAT: calculate_tax(supply_amount) at the hard-coded standard 18
percent rate. -/
def item_tax (it : ZohoLineItem) : ℚ :=
  calculate_tax (item_supply it) 18

/-- Display name of a line item: name, else description, else a generated
placeholder with the 1-based index. -/
def item_display_name (idx : ℕ) (it : ZohoLineItem) : String :=
  if truthy it.name then it.name.getD ""
  else if truthy it.description then it.description.getD ""
  else "Item_" ++ toString idx

/-- One VSDC itemList entry built from a line item at a 1-based index. -/
def vsdc_item_of (idx : ℕ) (it : ZohoLineItem) : VsdcItem :=
  let price := it.rate.getD 0
  let quantity := it.quantity.getD 1
  let supply_amount := round2 (price * quantity)
  let tax_amount := calculate_tax supply_amount 18
  { itemSeq := idx
    itemCd := if truthy it.item_id then it.item_id.getD "" else "RW1NTXU000000" ++ pad2 idx
    itemClsCd := it.item_class_code.getD ("50" ++ toString idx ++ "211080" ++ toString idx)
    itemNm := item_display_name idx it
    pkgUnitCd := "NT", pkg := 1, qtyUnitCd := "U"
    qty := quantity, prc := price, splyAmt := supply_amount
    dcRt := 0, dcAmt := 0
    taxTyCd := "B", taxblAmt := supply_amount, taxAmt := tax_amount, totAmt := supply_amount }

/-- The itemList built by the enumerate-from-1 loop. -/
def build_vsdc_items : ℕ → List ZohoLineItem → List VsdcItem
  | _, [] => []
  | idx, it :: rest => vsdc_item_of idx it :: build_vsdc_items (idx + 1) rest

/-- Accumulated taxable amount over the loop (before the final rounding). -/
def sum_supply (items : List ZohoLineItem) : ℚ :=
  (items.map item_supply).sum

/-- Accumulated tax amount over the loop (before the final rounding). -/
def sum_tax (items : List ZohoLineItem) : ℚ :=
  (items.map item_tax).sum

/-! ## The invoice transformer (transform_zoho_to_vsdc) -/

/-- Customer mobile: phone or mobile of the first contact person, if any. -/
def resolve_customer_mobile (d : ZohoInvoice) : Option String :=
  match d.contact_persons with
  | [] => none
  | c :: _ => if truthy c.1 then c.1 else c.2

/-- The VSDC payload assembled by transform_zoho_to_vsdc once validation and
number extraction have succeeded. -/
def build_invoice_payload (clock : Clock) (d : ZohoInvoice) (invcNo : ℕ) : VsdcPayload :=
  let tin := strip_opt (fallback_list d.cf_tin "cf_tin" d.custom_fields)
  let cust_tin := strip_opt (customer_tin_fallback
    (fallback_list d.cf_customer_tin "cf_customer_tin" d.custom_fields) d)
  let purchase_code := strip_opt (fallback_list d.cf_purchase_code "cf_purchase_code" d.custom_fields)
  let customer_name := d.customer_name.getD "Unknown Customer"
  let business := extract_business_info d.toZohoOrgFields
  let customer_mobile := resolve_customer_mobile d
  let items := d.line_items
  let sales_date := resolve_sales_date clock (match d.date with
    | some v => some v
    | none => d.invoice_date)
  { tin := tin
    bhfId := "00"
    invcNo := invcNo
    orgInvcNo := 0
    custTin := noneIfFalsy cust_tin
    prcOrdCd := noneIfFalsy purchase_code
    custNm := customer_name
    salesTyCd := "N", rcptTyCd := "S", pmtTyCd := "01", salesSttsCd := "02"
    cfmDt := clock.ymdhms
    salesDt := sales_date
    stockRlsDt := clock.ymdhms
    rfdDt := none, rfdRsnCd := none
    totItemCnt := items.length
    taxblAmtA := 0
    taxblAmtB := round2 (sum_supply items)
    taxblAmtC := 0
    taxblAmtD := 0
    taxRtA := 0, taxRtB := 18, taxRtC := 0, taxRtD := 0
    taxAmtA := 0
    taxAmtB := round2 (sum_tax items)
    taxAmtC := 0
    taxAmtD := 0
    totTaxblAmt := round2 (sum_supply items)
    totTaxAmt := round2 (sum_tax items)
    totAmt := round2 (sum_supply items)
    prchrAcptcYn := "N"
    remark := none
    regrId := "11999", regrNm := business.1, modrId := "45678", modrNm := business.1
    receipt := { custTin := cust_tin, custMblNo := customer_mobile, rptNo := 1
                 trdeNm := business.1, adrs := business.2, topMsg := business.1
                 btmMsg := "Thank you for your business!", prchrAcptcYn := "N" }
    itemList := build_vsdc_items 1 items }

/-- transform_zoho_to_vsdc: validate, extract and clamp the document number,
then assemble the submission. A raised ValueError is an error result. -/
def transform_zoho_to_vsdc (clock : Clock) (p : ZohoPayload) : Except String VsdcPayload :=
  match validate_required_fields p with
  | .error e => .error e
  | .ok _ =>
    let invoice_data := p.invoiceData
    let invoice_number_raw := strip (invoice_data.invoice_number.getD "")
    let invoice_no := extract_invoice_number_safely clock invoice_number_raw
    if invoice_no = 0 then
      .error ("Invalid invoice number extracted: " ++ toString invoice_no)
    else
      .ok (build_invoice_payload clock invoice_data (clamp_invoice_number invoice_no))

/-! ## The credit-note transformer (transform_zoho_credit_note_to_vsdc) -/

/-- generate_safe_credit_note_number: all digits of the credit-note identifier
when they form at least 3 digits within range; else a 9-prefix on the last 8
digits of the referenced invoice identifier; else a 9-prefix on the clock. -/
def generate_safe_credit_note_number (clock : Clock) (credit_note_number base_invoice_number : String) : ℕ :=
  let cn_numeric := credit_note_number.data.filter Char.isDigit
  if cn_numeric ≠ [] ∧ 3 ≤ cn_numeric.length ∧ digitsToNat cn_numeric ≤ 999999999 then
    digitsToNat cn_numeric
  else
    let inv_numeric := base_invoice_number.data.filter Char.isDigit
    if inv_numeric ≠ [] then
      digitsToNat ('9' :: inv_numeric.drop (inv_numeric.length - 8))
    else
      strToNat ("9" ++ clock.mdHM)

/-- invoices_credited head: the default singleton empty dict when the key is
absent, an index error on a present but empty list. -/
def credited_invoice_number (cn : ZohoCreditNote) : Except String String :=
  match cn.invoices_credited with
  | none => .ok "INV0000"
  | some [] => .error "list index out of range"
  | some (first :: _) => .ok (first.getD "INV0000")

/-- transform_zoho_credit_note_to_vsdc: no field validation is performed; the
only failure paths are an empty invoices_credited list and an unparseable
refund date. -/
def transform_zoho_credit_note_to_vsdc (clock : Clock) (p : CreditNotePayload) : Except String VsdcPayload :=
  let credit_note := p.getD emptyZohoCreditNote
  let tin := fallback_list credit_note.cf_tin "cf_tin" credit_note.custom_fields
  let customer_tin := fallback_list credit_note.cf_customer_tin "cf_customer_tin" credit_note.custom_fields
  let purchase_code := credit_note.cf_purchase_code
  let tin := some (if truthy tin then tin.getD "" else "000000000")
  let business := extract_business_info credit_note.toZohoOrgFields
  let credit_note_number := credit_note.creditnote_number.getD "CN0000"
  match credited_invoice_number credit_note with
  | .error e => .error e
  | .ok invoice_number =>
    let customer_name := credit_note.customer_name.getD "Unknown Customer"
    let items := credit_note.line_items
    let refund_date := credit_note.date.getD clock.ymdDash
    let invc_no := generate_safe_credit_note_number clock credit_note_number invoice_number
    let org_invc_no := extract_invoice_number_safely clock invoice_number
    match parse_ymd refund_date with
    | none => .error ("time data " ++ refund_date ++ " does not match format")
    | some ymd =>
      .ok { tin := tin
            bhfId := "00"
            invcNo := invc_no
            orgInvcNo := org_invc_no
            custTin := customer_tin
            prcOrdCd := purchase_code
            custNm := customer_name
            salesTyCd := "N", rcptTyCd := "R", pmtTyCd := "01", salesSttsCd := "02"
            cfmDt := clock.ymdhms
            salesDt := format_ymd8 ymd
            stockRlsDt := clock.ymdhms
            rfdDt := some (format_ymd8 ymd ++ "000000")
            rfdRsnCd := some "01"
            totItemCnt := items.length
            taxblAmtA := 0
            taxblAmtB := round2 (sum_supply items)
            taxblAmtC := 0
            taxblAmtD := 0
            taxRtA := 0, taxRtB := 18, taxRtC := 0, taxRtD := 0
            taxAmtA := 0
            taxAmtB := round2 (sum_tax items)
            taxAmtC := 0
            taxAmtD := 0
            totTaxblAmt := round2 (sum_supply items)
            totTaxAmt := round2 (sum_tax items)
            totAmt := round2 (sum_supply items)
            prchrAcptcYn := "N"
            remark := some (credit_note.notes.getD "")
            regrId := "11999", regrNm := business.1, modrId := "45678", modrNm := business.1
            receipt := { custTin := customer_tin
                         custMblNo := some (credit_note.customer_mobile.getD "0795577896")
                         rptNo := 1, trdeNm := business.1, adrs := business.2, topMsg := business.1
                         btmMsg := "Thank you for your business!", prchrAcptcYn := "N" }
            itemList := build_vsdc_items 1 items }

/-! ## Fiscal response and the response interpreter (src/main.py) -/

/-- The VSDC response body; the data sub-record is flattened to the receipt
number field this development needs. -/
structure EbmResponse where
  resultCd : Option String
  resultMsg : Option String
  rcptNo : Option String
deriving Repr, DecidableEq

/-- Document kind, selecting the relevant error-code table. -/
inductive DocKind where
  | invoice
  | creditNote
deriving Repr, DecidableEq

/-- The invoice handler's fixed error_mapping dict from VSDC result codes to
HTTP statuses. -/
def invoice_error_mapping (code : String) : Option ℕ :=
  if code = "881" then some 400
  else if code = "882" then some 400
  else if code = "883" then some 409
  else if code = "884" then some 400
  else if code = "901" then some 401
  else if code = "910" then some 400
  else if code = "921" then some 422
  else if code = "922" then some 422
  else if code = "994" then some 409
  else none

/-- The credit-note handler's fixed error_mapping dict: the invoice table plus
the credit-note-specific codes 885, 886 and 923. -/
def credit_note_error_mapping (code : String) : Option ℕ :=
  if code = "881" then some 400
  else if code = "882" then some 400
  else if code = "883" then some 409
  else if code = "884" then some 400
  else if code = "885" then some 400
  else if code = "886" then some 409
  else if code = "901" then some 401
  else if code = "910" then some 400
  else if code = "921" then some 422
  else if code = "922" then some 422
  else if code = "923" then some 400
  else if code = "994" then some 409
  else none

/-- The error table selected by document kind. -/
def error_mapping : DocKind → String → Option ℕ
  | .invoice => invoice_error_mapping
  | .creditNote => credit_note_error_mapping

/-- Outcome category of a result code. -/
inductive Classification where
  | success
  | rejection (httpStatus : ℕ)
deriving Repr, DecidableEq

/-- Classification of a VSDC result code: the code 000 is the success code;
any other code is a business rejection whose HTTP status comes from the
selected table, defaulting to 422. -/
def interpret_result_code (kind : DocKind) (code : String) : Classification :=
  if code = "000" then .success
  else .rejection ((error_mapping kind code).getD 422)

/-! ## Webhook orchestration -/

/-- What the outbound HTTP call to the fiscal endpoint produced: a transport
exception, or an HTTP response whose body either parsed as JSON or did not. -/
inductive RemoteResult where
  | requestTimeout
  | requestError (msg : String)
  | response (status : ℕ) (body : Option EbmResponse)
deriving Repr, DecidableEq

/-- What the receipt-rendering collaborator (PDF generation) does when called. -/
inductive RenderResult where
  | rendered (filename : String)
  | failure (err : String)
deriving Repr, DecidableEq

/-- The observable outcome of one webhook invocation. -/
structure WebhookOutcome where
  status : ℕ
  renderCalled : Bool
  pdfError : Option String
  vsdcResponse : Option EbmResponse
deriving Repr, DecidableEq

/-- handle_zoho_webhook for invoices: transform, submit, interpret, and render
only on success; a rendering failure keeps HTTP 200 and attaches the error;
transport exceptions reach the generic handler (500); a non-200 fiscal status
or malformed body is a 502. -/
def handle_zoho_webhook (clock : Clock) (p : ZohoPayload)
    (remote : RemoteResult) (render : RenderResult) : WebhookOutcome :=
  match transform_zoho_to_vsdc clock p with
  | .error _ => { status := 400, renderCalled := false, pdfError := none, vsdcResponse := none }
  | .ok _ =>
    match remote with
    | .requestTimeout =>
      { status := 500, renderCalled := false, pdfError := none, vsdcResponse := none }
    | .requestError _ =>
      { status := 500, renderCalled := false, pdfError := none, vsdcResponse := none }
    | .response status body =>
      if status = 200 then
        match body with
        | none => { status := 502, renderCalled := false, pdfError := none, vsdcResponse := none }
        | some ebm =>
          let result_code := ebm.resultCd.getD "999"
          if result_code = "000" then
            match render with
            | .rendered _ =>
              { status := 200, renderCalled := true, pdfError := none, vsdcResponse := some ebm }
            | .failure e =>
              { status := 200, renderCalled := true, pdfError := some e, vsdcResponse := some ebm }
          else
            { status := (invoice_error_mapping result_code).getD 422
              renderCalled := false, pdfError := none, vsdcResponse := some ebm }
      else
        { status := 502, renderCalled := false, pdfError := none, vsdcResponse := none }

/-- handle_zoho_credit_note_webhook: like the invoice handler, with dedicated
transport statuses (504 timeout, 502 connection), the credit-note error table,
and transformation failures reaching the generic internal handler (500). -/
def handle_zoho_credit_note_webhook (clock : Clock) (p : CreditNotePayload)
    (remote : RemoteResult) (render : RenderResult) : WebhookOutcome :=
  match transform_zoho_credit_note_to_vsdc clock p with
  | .error _ => { status := 500, renderCalled := false, pdfError := none, vsdcResponse := none }
  | .ok _ =>
    match remote with
    | .requestTimeout =>
      { status := 504, renderCalled := false, pdfError := none, vsdcResponse := none }
    | .requestError _ =>
      { status := 502, renderCalled := false, pdfError := none, vsdcResponse := none }
    | .response status body =>
      if status = 200 then
        match body with
        | none => { status := 502, renderCalled := false, pdfError := none, vsdcResponse := none }
        | some ebm =>
          let result_code := ebm.resultCd.getD "999"
          if result_code = "000" then
            match render with
            | .rendered _ =>
              { status := 200, renderCalled := true, pdfError := none, vsdcResponse := some ebm }
            | .failure e =>
              { status := 200, renderCalled := true, pdfError := some e, vsdcResponse := some ebm }
          else
            { status := (credit_note_error_mapping result_code).getD 422
              renderCalled := false, pdfError := none, vsdcResponse := some ebm }
      else
        { status := 502, renderCalled := false, pdfError := none, vsdcResponse := none }

/-- A remote result that the pipeline counts as fiscal success: HTTP 200, a
parseable body, and result code 000. -/
def is_success_response : RemoteResult → Bool
  | .response 200 (some ebm) => ebm.resultCd.getD "999" = "000"
  | _ => false

/-! ## Receipt-number extraction (src/services/vsdc_service.py) -/

/-- The Zoho data as seen by the receipt extractor: nested under a creditnote
key, nested under an invoice key, or flat. -/
inductive ZohoDoc where
  | creditnote (creditnote_number : Option String) (number : Option String)
  | invoice (invoice_number : Option String)
  | direct (invoice_number : Option String) (creditnote_number : Option String)
deriving Repr, DecidableEq

/-- Priority 3 of the receipt extractor: the original document identifier from
the Zoho data, else a clock-derived fallback receipt number. -/
def receipt_priority3 (clock : Clock) (zoho : ZohoDoc) : String :=
  let original_number :=
    match zoho with
    | .creditnote cn_num num => cn_num.getD (num.getD "")
    | .invoice inv_num => inv_num.getD ""
    | .direct inv_num cn_num => inv_num.getD (cn_num.getD "")
  if original_number ≠ "" ∧ strip original_number ≠ "" then strip original_number
  else "RCP-" ++ clock.ymdhms

/-- extract_receipt_number_safely: the trimmed VSDC receipt number when present
and non-blank; else the submission's nonzero document number; else the original
Zoho identifier; else a clock-derived fallback. -/
def extract_receipt_number_safely (clock : Clock) (ebm : EbmResponse) (zoho : ZohoDoc)
    (vsdc : Option VsdcPayload) : String :=
  let vsdc_receipt := ebm.rcptNo.getD ""
  if vsdc_receipt ≠ "" ∧ strip vsdc_receipt ≠ "" then strip vsdc_receipt
  else
    match vsdc with
    | some vp => if vp.invcNo ≠ 0 then toString vp.invcNo else receipt_priority3 clock zoho
    | none => receipt_priority3 clock zoho

/-- The invoice number handed to the PDF renderer by
convert_ebm_response_to_invoice_model (line 346 of vsdc_service.py). -/
def convert_invoice_number (clock : Clock) (ebm : EbmResponse) (zoho : ZohoDoc)
    (vsdc : Option VsdcPayload) : String :=
  extract_receipt_number_safely clock ebm zoho vsdc

/-! ## Shared helpers for the theorems -/

/-- Whether an exception-carrying computation succeeded. -/
def exOk {α : Type} : Except String α → Bool
  | .ok _ => true
  | .error _ => false

/-- A fixed clock used for concrete evaluations. -/
def testClock : Clock :=
  { mdHM := "06211230", ymd := "20240621", ymdhms := "20240621123000", ymdDash := "2024-06-21" }

/-- A second fixed clock, distinct from testClock in every field. -/
def otherClock : Clock :=
  { mdHM := "12310101", ymd := "20251231", ymdhms := "20251231010100", ymdDash := "2025-12-31" }

/-- Characterisation of round2 by rational bounds, usable with norm_num. -/
theorem round2_eq_of_bounds (q : ℚ) (n : ℤ) (h1 : (n : ℚ) ≤ q * 100 + 1 / 2)
    (h2 : q * 100 + 1 / 2 < n + 1) : round2 q = (n : ℚ) / 100 := by
  unfold round2
  rw [round_eq]
  congr 1
  exact_mod_cast Int.floor_eq_iff.mpr ⟨h1, by exact_mod_cast h2⟩

/-- round2 is the identity on integer multiples of one hundredth. -/
theorem round2_int_div_100 (n : ℤ) : round2 ((n : ℚ) / 100) = (n : ℚ) / 100 := by
  unfold round2
  rw [div_mul_cancel₀ _ (by norm_num : (100 : ℚ) ≠ 0)]
  rw [round_intCast]

/-- Every round2 value is an integer multiple of one hundredth. -/
theorem round2_exists_int (q : ℚ) : ∃ n : ℤ, round2 q = (n : ℚ) / 100 :=
  ⟨round (q * 100), rfl⟩

/-- Each per-item taxable amount is a multiple of one hundredth. -/
theorem item_supply_exists_int (it : ZohoLineItem) : ∃ n : ℤ, item_supply it = (n : ℚ) / 100 :=
  round2_exists_int _

/-- The accumulated taxable amount is a multiple of one hundredth. -/
theorem sum_supply_exists_int (items : List ZohoLineItem) :
    ∃ n : ℤ, sum_supply items = (n : ℚ) / 100 := by
  induction items with
  | nil => exact ⟨0, by simp [sum_supply]⟩
  | cons it rest ih =>
    obtain ⟨n, hn⟩ := item_supply_exists_int it
    obtain ⟨m, hm⟩ := ih
    refine ⟨n + m, ?_⟩
    simp only [sum_supply, List.map_cons, List.sum_cons] at *
    rw [hn, hm]
    push_cast
    ring

/-- The final rounding of the taxable accumulator changes nothing: per-item
rounding already left a multiple of one hundredth. -/
theorem round2_sum_supply (items : List ZohoLineItem) :
    round2 (sum_supply items) = sum_supply items := by
  obtain ⟨n, hn⟩ := sum_supply_exists_int items
  rw [hn, round2_int_div_100]

/-- Every pair of the itemList zipped with the source items is a built item
paired with its source line item at some 1-based index. -/
theorem build_vsdc_items_zip (items : List ZohoLineItem) :
    ∀ (k : ℕ) pr, pr ∈ (build_vsdc_items k items).zip items →
      ∃ idx, pr = (vsdc_item_of idx pr.2, pr.2) := by
  induction items with
  | nil => intro k pr h; simp [build_vsdc_items] at h
  | cons it rest ih =>
    intro k pr h
    simp only [build_vsdc_items, List.zip_cons_cons, List.mem_cons] at h
    rcases h with h | h
    · exact ⟨k, by simp [h]⟩
    · exact ih (k + 1) pr h

/-- The taxable amounts of the built items are the per-item taxable amounts. -/
theorem build_vsdc_items_taxbl (items : List ZohoLineItem) :
    ∀ k, (build_vsdc_items k items).map VsdcItem.taxblAmt = items.map item_supply := by
  induction items with
  | nil => intro k; rfl
  | cons it rest ih =>
    intro k
    simp only [build_vsdc_items, List.map_cons, ih (k + 1)]
    rfl

/-- A character list containing a digit, or a nonempty pending run, yields at
least one digit run. -/
theorem digitRunsAux_ne_nil (l : List Char) :
    ∀ acc, (l.any Char.isDigit = true ∨ acc ≠ []) → digitRunsAux l acc ≠ [] := by
  induction l with
  | nil =>
    intro acc h
    rcases h with h | h
    · simp at h
    · simp [digitRunsAux, h]
  | cons c cs ih =>
    intro acc h
    unfold digitRunsAux
    split_ifs with hd hacc
    · exact ih (c :: acc) (Or.inr (by simp))
    · rcases h with h | h
      · simp only [List.any_cons, Bool.or_eq_true] at h
        rcases h with h | h
        · exact absurd h hd
        · exact ih [] (Or.inl h)
      · simp only [List.isEmpty_iff] at hacc
        exact absurd hacc h
    · simp

/-- A string whose characters include a digit has a nonempty digit-run list. -/
theorem digitRuns_ne_nil (s : String) (h : s.data.any Char.isDigit = true) :
    digitRuns s ≠ [] := by
  unfold digitRuns
  intro he
  exact digitRunsAux_ne_nil s.data [] (Or.inl h) (by simpa using he)

/-- Inversion of a successful invoice transformation: the result is the
assembled payload for the clamped extracted document number. -/
theorem transform_ok_inv (clock : Clock) (p : ZohoPayload) (v : VsdcPayload)
    (h : transform_zoho_to_vsdc clock p = .ok v) :
    v = build_invoice_payload clock p.invoiceData
      (clamp_invoice_number (extract_invoice_number_safely clock
        (strip (p.invoiceData.invoice_number.getD "")))) := by
  unfold transform_zoho_to_vsdc at h
  cases hval : validate_required_fields p with
  | error e => rw [hval] at h; exact absurd h (by simp)
  | ok u =>
    rw [hval] at h
    dsimp only at h
    split_ifs at h with h0
    all_goals first
      | exact Except.noConfusion h
      | exact (Except.ok.inj h).symm

/-! ## Concrete inputs used by counterexamples and witnesses -/

/-- A line item with a valid name and rate but a negative quantity. -/
def cx_item : ZohoLineItem :=
  { name := some "Widget", description := none, item_id := none, item_class_code := none
    rate := some 10, quantity := some (-5) }

/-- An invoice payload whose only flaw is the negative quantity of its item. -/
def cx_payload : ZohoPayload :=
  { invoice := some { emptyZohoInvoice with invoice_number := some "INV-7", line_items := [cx_item] }
    top := emptyZohoInvoice }

/-- A credit note with an empty line-item list and no identifier fields. -/
def cn_empty_items : ZohoCreditNote :=
  { emptyZohoCreditNote with creditnote_number := some "CN-001", date := some "2024-06-21" }

/-- The line item of end-to-end scenario 1: Widget, rate 1000, quantity 2. -/
def c2_item : ZohoLineItem :=
  { name := some "Widget", description := none, item_id := none, item_class_code := none
    rate := some 1000, quantity := some 2 }

/-- The document of end-to-end scenario 1: INV-000061 with the Widget item. -/
def c2_invoice : ZohoInvoice :=
  { emptyZohoInvoice with invoice_number := some "INV-000061", line_items := [c2_item] }

/-- Scenario 1 wrapped as a webhook payload. -/
def c2_payload : ZohoPayload := { invoice := some c2_invoice, top := emptyZohoInvoice }

/-- A line item with rate 100 and quantity 1. -/
def c5_item : ZohoLineItem :=
  { name := some "Thing", description := none, item_id := none, item_class_code := none
    rate := some 100, quantity := some 1 }

/-- An invoice document holding only c5_item. -/
def c5_invoice : ZohoInvoice :=
  { emptyZohoInvoice with invoice_number := some "INV-100", line_items := [c5_item] }

/-- The c5 document wrapped as a webhook payload. -/
def c5_payload : ZohoPayload := { invoice := some c5_invoice, top := emptyZohoInvoice }

/-- A line item with rate 500 and quantity 3. -/
def c10_item : ZohoLineItem :=
  { name := some "Gadget", description := none, item_id := none, item_class_code := none
    rate := some 500, quantity := some 3 }

/-- An invoice document holding only c10_item. -/
def c10_invoice : ZohoInvoice :=
  { emptyZohoInvoice with invoice_number := some "INV-202", line_items := [c10_item] }

/-- The c10 document wrapped as a webhook payload. -/
def c10_payload : ZohoPayload := { invoice := some c10_invoice, top := emptyZohoInvoice }

/-- Projection of a field out of a successful transformation, 0 on failure. -/
def okProj (f : VsdcPayload → ℚ) : Except String VsdcPayload → ℚ
  | .ok v => f v
  | .error _ => 0

/-! ## C3: purity and range of the document number resolver -/

/-- C3 counterexample: the claim says the resolver's output always lies in
[0, 999999999], but a purely numeric identifier of ten digits is parsed
directly and exceeds that bound (the clamping happens later, in the caller). -/
theorem claim_C3_counterexample :
    extract_invoice_number_safely testClock "9999999999" = 9999999999 ∧
    ¬ (9999999999 : ℕ) ≤ 999999999 := by
  exact ⟨by decide, by decide⟩

/-- C3 (amended): on any input whose stripped form contains at least one digit
the resolver is a pure function of the string — the clock never enters — and
the caller's clamping keeps every successfully transformed submission's
document number within [0, 999999999]; the resolver's raw output itself may
exceed the bound, and digitless inputs are clock-derived. -/
theorem claim_C3_amended :
    (∀ c1 c2 s, (strip s).data.any Char.isDigit = true →
      extract_invoice_number_safely c1 s = extract_invoice_number_safely c2 s) ∧
    (∀ n, clamp_invoice_number n ≤ 999999999) ∧
    (∀ clock p v, transform_zoho_to_vsdc clock p = .ok v → v.invcNo ≤ 999999999) := by
  have hclamp : ∀ n, clamp_invoice_number n ≤ 999999999 := by
    intro n
    unfold clamp_invoice_number
    split_ifs with h
    · omega
    · omega
  refine ⟨?_, hclamp, ?_⟩
  · intro c1 c2 s h
    unfold extract_invoice_number_safely
    dsimp only
    have hne : digitRuns (strip s) ≠ [] := digitRuns_ne_nil _ h
    split_ifs with h1
    · rfl
    · rfl
  · intro clock p v h
    rw [transform_ok_inv clock p v h]
    exact hclamp _

/-- C3 witness: the resolver gives the same value on INV-001 under two clocks
that disagree in every field. -/
theorem claim_C3_witness :
    extract_invoice_number_safely testClock "INV-001" = extract_invoice_number_safely otherClock "INV-001" :=
  claim_C3_amended.1 testClock otherClock "INV-001" (by decide)

/-! ## C4: the response interpreter and its two code tables -/

/-- C4: the code 000 is Success for both tables; every code present in both
tables maps to the same outward category; any other code absent from the
selected table is the generic 422 classification. -/
theorem claim_C4 :
    (interpret_result_code .invoice "000" = .success ∧
     interpret_result_code .creditNote "000" = .success) ∧
    (∀ c a b, invoice_error_mapping c = some a → credit_note_error_mapping c = some b → a = b) ∧
    (∀ k c, c ≠ "000" → error_mapping k c = none → interpret_result_code k c = .rejection 422) := by
  refine ⟨⟨rfl, rfl⟩, ?_, ?_⟩
  · intro c a b h1 h2
    unfold invoice_error_mapping at h1
    split_ifs at h1 <;>
      first
        | exact Option.noConfusion h1
        | (subst_vars
           injection h1 with ha
           simp [credit_note_error_mapping] at h2
           omega)
  · intro k c hc h
    unfold interpret_result_code
    rw [if_neg hc, h]
    rfl

/-- C4 witness: the shared code 994 is mapped to 409 by both tables, and the
agreement clause applies to it. -/
theorem claim_C4_witness :
    invoice_error_mapping "994" = some 409 ∧ credit_note_error_mapping "994" = some 409 ∧
    (409 : ℕ) = 409 :=
  ⟨rfl, rfl, claim_C4.2.1 "994" 409 409 rfl rfl⟩

/-! ## C7: rendering is invoked only on fiscal success -/

/-- C7: for every run whose remote interaction is not an HTTP-200 response
with result code 000 — a transport failure, a malformed body, a non-200
status, or a business rejection — neither handler calls the rendering
collaborator. -/
theorem claim_C7 : ∀ clock p q remote render,
    is_success_response remote = false →
    (handle_zoho_webhook clock p remote render).renderCalled = false ∧
    (handle_zoho_credit_note_webhook clock q remote render).renderCalled = false := by
  intro clock p q remote render h
  constructor
  · unfold handle_zoho_webhook
    cases htr : transform_zoho_to_vsdc clock p with
    | error e => rfl
    | ok v =>
      cases remote with
      | requestTimeout => rfl
      | requestError m => rfl
      | response st body =>
        by_cases hst : st = 200
        · subst hst
          cases body with
          | none => rfl
          | some ebm =>
            have hcode : ¬ ebm.resultCd.getD "999" = "000" := by
              simpa [is_success_response] using h
            dsimp only
            rw [if_pos rfl, if_neg hcode]
        · dsimp only
          rw [if_neg hst]
  · unfold handle_zoho_credit_note_webhook
    cases htr : transform_zoho_credit_note_to_vsdc clock q with
    | error e => rfl
    | ok v =>
      cases remote with
      | requestTimeout => rfl
      | requestError m => rfl
      | response st body =>
        by_cases hst : st = 200
        · subst hst
          cases body with
          | none => rfl
          | some ebm =>
            have hcode : ¬ ebm.resultCd.getD "999" = "000" := by
              simpa [is_success_response] using h
            dsimp only
            rw [if_pos rfl, if_neg hcode]
        · dsimp only
          rw [if_neg hst]

/-- C7 witness: a connection-refused run on scenario 1 renders nothing in
either handler. -/
theorem claim_C7_witness :
    (handle_zoho_webhook testClock c2_payload (.requestError "connection refused")
      (.rendered "x.pdf")).renderCalled = false ∧
    (handle_zoho_credit_note_webhook testClock (some cn_empty_items)
      (.requestError "connection refused") (.rendered "x.pdf")).renderCalled = false :=
  claim_C7 testClock c2_payload (some cn_empty_items) (.requestError "connection refused")
    (.rendered "x.pdf") rfl

/-! ## C8: the fiscal receipt number wins over every other candidate -/

/-- C8: whenever the fiscal response carries a non-blank receipt number, the
document number used downstream for rendering is that receipt number trimmed,
whatever the submission's document number and the original identifier are. -/
theorem claim_C8 : ∀ clock ebm zoho vsdc s,
    ebm.rcptNo = some s → strip s ≠ "" →
    extract_receipt_number_safely clock ebm zoho vsdc = strip s := by
  intro clock ebm zoho vsdc s h hs
  have hne : s ≠ "" := by
    intro he
    rw [he] at hs
    exact hs rfl
  unfold extract_receipt_number_safely
  rw [h]
  simp only [Option.getD_some]
  rw [if_pos ⟨hne, hs⟩]

/-- C8 witness: a padded receipt number 20240001 wins over an invoice number
61 in the submission and INV-000061 in the source document. -/
theorem claim_C8_witness :
    extract_receipt_number_safely testClock
      { resultCd := some "000", resultMsg := some "Success", rcptNo := some " 20240001 " }
      (.invoice (some "INV-000061"))
      (some (build_invoice_payload testClock c2_invoice 61)) = strip " 20240001 " :=
  claim_C8 testClock _ _ _ " 20240001 " rfl (by decide)

/-! ## C9: the digit-run extraction algorithm -/

/-- C9: a purely numeric stripped identifier is parsed directly; otherwise the
resolver returns the value of the first maximal digit run of length at least
3, or, when no such run exists, the value of the longest run. -/
theorem claim_C9 :
    (∀ clock s, strip s ≠ "" → (strip s).data.all Char.isDigit = true →
      extract_invoice_number_safely clock s = strToNat (strip s)) ∧
    (∀ clock s part, ¬ (strip s ≠ "" ∧ (strip s).data.all Char.isDigit = true) →
      (digitRuns (strip s)).find? (fun p => decide (3 ≤ p.length)) = some part →
      extract_invoice_number_safely clock s = strToNat part) ∧
    (∀ clock s, ¬ (strip s ≠ "" ∧ (strip s).data.all Char.isDigit = true) →
      digitRuns (strip s) ≠ [] →
      (digitRuns (strip s)).find? (fun p => decide (3 ≤ p.length)) = none →
      extract_invoice_number_safely clock s = strToNat (longestRun (digitRuns (strip s)))) := by
  refine ⟨?_, ?_, ?_⟩
  · intro clock s h1 h2
    unfold extract_invoice_number_safely
    rw [if_pos ⟨h1, h2⟩]
  · intro clock s part h hf
    unfold extract_invoice_number_safely
    rw [if_neg h]
    have hne : digitRuns (strip s) ≠ [] := by
      intro he
      rw [he] at hf
      exact Option.noConfusion hf
    rw [if_pos hne, hf]
  · intro clock s h hne hf
    unfold extract_invoice_number_safely
    rw [if_neg h, if_pos hne, hf]

/-- C9 witness: INV-2024-001 is not purely numeric, its first run of length at
least 3 is 2024, and the resolver returns its value. -/
theorem claim_C9_witness :
    extract_invoice_number_safely testClock "INV-2024-001" = strToNat "2024" :=
  claim_C9.2.1 testClock "INV-2024-001" "2024" (by decide) (by decide)

/-! ## Per-item field lemmas -/

/-- The built item's taxable amount is the rounded rate-times-quantity. -/
theorem vsdc_item_of_taxbl (idx : ℕ) (it : ZohoLineItem) :
    (vsdc_item_of idx it).taxblAmt = round2 (it.rate.getD 0 * it.quantity.getD 1) := rfl

/-- calculate_tax at the standard rate is the 18-in-118 extraction. -/
theorem calculate_tax_18 (x : ℚ) : calculate_tax x 18 = round2 (x * 18 / 118) := by
  unfold calculate_tax
  rw [if_neg (by norm_num : ¬ (18 : ℚ) = 0)]
  norm_num

/-- The built item's tax amount is the 18-in-118 extraction of its taxable
amount. -/
theorem vsdc_item_of_tax (idx : ℕ) (it : ZohoLineItem) :
    (vsdc_item_of idx it).taxAmt = round2 ((vsdc_item_of idx it).taxblAmt * 18 / 118) := by
  show calculate_tax (round2 (it.rate.getD 0 * it.quantity.getD 1)) 18 = _
  rw [calculate_tax_18]
  rfl

/-- The taxable amount of scenario 1's single line item. -/
theorem c2_item_supply : item_supply c2_item = 2000 := by
  simp only [item_supply, c2_item, Option.getD_some]
  rw [show (1000 : ℚ) * 2 = 2000 by norm_num]
  rw [round2_eq_of_bounds 2000 200000 (by norm_num) (by norm_num)]
  norm_num

/-! ## C2: per-item tax arithmetic and end-to-end scenario 1 -/

/-- C2: each line item with positive rate and quantity yields
taxableAmount = round(rate * quantity, 2) and
taxAmount = round(taxableAmount * 18 / 118, 2); and the INV-000061 document
with one Widget at rate 1000 and quantity 2 yields taxableAmountB 2000.00,
taxAmountB 305.08 and document number 61. -/
theorem claim_C2 :
    (∀ clock p v, transform_zoho_to_vsdc clock p = .ok v →
      ∀ pr ∈ v.itemList.zip p.invoiceData.line_items,
        0 < pr.2.rate.getD 0 → 0 < pr.2.quantity.getD 1 →
        pr.1.taxblAmt = round2 (pr.2.rate.getD 0 * pr.2.quantity.getD 1) ∧
        pr.1.taxAmt = round2 (pr.1.taxblAmt * 18 / 118)) ∧
    okProj VsdcPayload.taxblAmtB (transform_zoho_to_vsdc testClock c2_payload) = 2000 ∧
    okProj VsdcPayload.taxAmtB (transform_zoho_to_vsdc testClock c2_payload) = 30508 / 100 ∧
    (transform_zoho_to_vsdc testClock c2_payload).map VsdcPayload.invcNo = .ok 61 := by
  have htr : transform_zoho_to_vsdc testClock c2_payload =
      .ok (build_invoice_payload testClock c2_invoice 61) := rfl
  refine ⟨?_, ?_, ?_, rfl⟩
  · intro clock p v hok pr hpr hr hq
    have hv := transform_ok_inv clock p v hok
    subst hv
    have hpr2 : pr ∈ (build_vsdc_items 1 p.invoiceData.line_items).zip p.invoiceData.line_items := hpr
    obtain ⟨idx, hidx⟩ := build_vsdc_items_zip _ _ _ hpr2
    rcases pr with ⟨a, b⟩
    have ha : a = vsdc_item_of idx b := congrArg Prod.fst hidx
    subst ha
    exact ⟨vsdc_item_of_taxbl idx b, vsdc_item_of_tax idx b⟩
  · rw [htr]
    show round2 (sum_supply [c2_item]) = 2000
    have hs : sum_supply [c2_item] = 2000 := by
      simp only [sum_supply, List.map_cons, List.map_nil, List.sum_cons, List.sum_nil, add_zero]
      exact c2_item_supply
    rw [hs, round2_eq_of_bounds 2000 200000 (by norm_num) (by norm_num)]
    norm_num
  · rw [htr]
    show round2 (sum_tax [c2_item]) = 30508 / 100
    have ht : sum_tax [c2_item] = 30508 / 100 := by
      simp only [sum_tax, List.map_cons, List.map_nil, List.sum_cons, List.sum_nil, add_zero]
      unfold item_tax
      rw [calculate_tax_18, c2_item_supply]
      rw [show (2000 : ℚ) * 18 / 118 = 36000 / 118 by norm_num]
      rw [round2_eq_of_bounds (36000 / 118) 30508 (by norm_num) (by norm_num)]
      norm_num
    rw [ht, round2_eq_of_bounds (30508 / 100) 30508 (by norm_num) (by norm_num)]
    norm_num

/-- C2 witness: the general per-item clause applied to scenario 1's item. -/
theorem claim_C2_witness :
    (vsdc_item_of 1 c2_item).taxblAmt = round2 (c2_item.rate.getD 0 * c2_item.quantity.getD 1) ∧
    (vsdc_item_of 1 c2_item).taxAmt = round2 ((vsdc_item_of 1 c2_item).taxblAmt * 18 / 118) :=
  claim_C2.1 testClock c2_payload (build_invoice_payload testClock c2_invoice 61) rfl
    (vsdc_item_of 1 c2_item, c2_item) (List.mem_singleton_self _)
    (by norm_num [c2_item]) (by norm_num [c2_item])

/-! ## C5: the bucket invariant -/

/-- C5 counterexample: the claim's bucket invariant
tax_amount = round(taxable_amount * rate / 100, 2) fails for bucket B on a
one-item document with rate 100 and quantity 1: the code stores the inclusive
extraction 15.25, not round(100 * 18 / 100, 2) = 18. -/
theorem claim_C5_counterexample :
    okProj VsdcPayload.taxAmtB (transform_zoho_to_vsdc testClock c5_payload) ≠
      round2 (okProj VsdcPayload.taxblAmtB (transform_zoho_to_vsdc testClock c5_payload) *
        okProj VsdcPayload.taxRtB (transform_zoho_to_vsdc testClock c5_payload) / 100) := by
  have htr : transform_zoho_to_vsdc testClock c5_payload =
      .ok (build_invoice_payload testClock c5_invoice 100) := rfl
  rw [htr]
  show round2 (sum_tax [c5_item]) ≠
    round2 (round2 (sum_supply [c5_item]) * 18 / 100)
  have hsup : sum_supply [c5_item] = 100 := by
    simp only [sum_supply, List.map_cons, List.map_nil, List.sum_cons, List.sum_nil, add_zero]
    simp only [item_supply, c5_item, Option.getD_some]
    rw [show (100 : ℚ) * 1 = 100 by norm_num]
    rw [round2_eq_of_bounds 100 10000 (by norm_num) (by norm_num)]
    norm_num
  have htax : sum_tax [c5_item] = 1525 / 100 := by
    simp only [sum_tax, List.map_cons, List.map_nil, List.sum_cons, List.sum_nil, add_zero]
    unfold item_tax
    rw [calculate_tax_18]
    have : item_supply c5_item = 100 := by
      simp only [item_supply, c5_item, Option.getD_some]
      rw [show (100 : ℚ) * 1 = 100 by norm_num]
      rw [round2_eq_of_bounds 100 10000 (by norm_num) (by norm_num)]
      norm_num
    rw [this]
    rw [show (100 : ℚ) * 18 / 118 = 1800 / 118 by norm_num]
    rw [round2_eq_of_bounds (1800 / 118) 1525 (by norm_num) (by norm_num)]
    norm_num
  rw [htax, hsup]
  rw [round2_eq_of_bounds 100 10000 (by norm_num) (by norm_num)]
  rw [show ((10000 : ℤ) : ℚ) / 100 * 18 / 100 = 18 by norm_num]
  rw [round2_eq_of_bounds 18 1800 (by norm_num) (by norm_num)]
  rw [round2_eq_of_bounds (1525 / 100) 1525 (by norm_num) (by norm_num)]
  norm_num

/-- C5 (amended): bucket B's tax amount is the rounded sum of the per-item
18-in-118 extractions (not taxable times rate over 100); buckets A, C and D
are identically zero; and the sum of the buckets' taxable amounts equals the
sum of the line items' taxable amounts. -/
theorem claim_C5_amended : ∀ clock p v, transform_zoho_to_vsdc clock p = .ok v →
    (v.taxAmtB = round2 (sum_tax p.invoiceData.line_items) ∧
     v.taxblAmtA = 0 ∧ v.taxAmtA = 0 ∧ v.taxblAmtC = 0 ∧ v.taxAmtC = 0 ∧
     v.taxblAmtD = 0 ∧ v.taxAmtD = 0) ∧
    v.taxblAmtA + v.taxblAmtB + v.taxblAmtC + v.taxblAmtD =
      (v.itemList.map VsdcItem.taxblAmt).sum := by
  intro clock p v h
  have hv := transform_ok_inv clock p v h
  subst hv
  refine ⟨⟨rfl, rfl, rfl, rfl, rfl, rfl, rfl⟩, ?_⟩
  show (0 : ℚ) + round2 (sum_supply p.invoiceData.line_items) + 0 + 0 =
    ((build_vsdc_items 1 p.invoiceData.line_items).map VsdcItem.taxblAmt).sum
  rw [build_vsdc_items_taxbl _ 1, round2_sum_supply, zero_add, add_zero, add_zero]
  rfl

/-- C5 witness: the amended invariant instantiated on the rate-100 document. -/
theorem claim_C5_witness :
    okProj VsdcPayload.taxblAmtA (transform_zoho_to_vsdc testClock c5_payload) = 0 ∧
    okProj VsdcPayload.taxAmtB (transform_zoho_to_vsdc testClock c5_payload) =
      round2 (sum_tax [c5_item]) := by
  have h := claim_C5_amended testClock c5_payload (build_invoice_payload testClock c5_invoice 100) rfl
  exact ⟨h.1.2.1, h.1.1⟩

/-! ## C10: the grand total never includes VAT -/

/-- C10: on every successful invoice transformation the grand total equals the
total taxable amount and equals bucket B's taxable amount, and each fiscal
line item has splyAmt = taxblAmt = totAmt = round(rate * quantity, 2). -/
theorem claim_C10 : ∀ clock p v, transform_zoho_to_vsdc clock p = .ok v →
    (v.totAmt = v.totTaxblAmt ∧ v.totTaxblAmt = v.taxblAmtB) ∧
    ∀ pr ∈ v.itemList.zip p.invoiceData.line_items,
      pr.1.splyAmt = round2 (pr.2.rate.getD 0 * pr.2.quantity.getD 1) ∧
      pr.1.taxblAmt = pr.1.splyAmt ∧
      pr.1.totAmt = pr.1.splyAmt := by
  intro clock p v h
  have hv := transform_ok_inv clock p v h
  subst hv
  refine ⟨⟨rfl, rfl⟩, ?_⟩
  intro pr hpr
  have hpr2 : pr ∈ (build_vsdc_items 1 p.invoiceData.line_items).zip p.invoiceData.line_items := hpr
  obtain ⟨idx, hidx⟩ := build_vsdc_items_zip _ _ _ hpr2
  rcases pr with ⟨a, b⟩
  have ha : a = vsdc_item_of idx b := congrArg Prod.fst hidx
  subst ha
  exact ⟨rfl, rfl, rfl⟩

/-- C10 witness: on the rate-500 quantity-3 document the grand total equals
bucket B's taxable amount. -/
theorem claim_C10_witness :
    okProj VsdcPayload.totAmt (transform_zoho_to_vsdc testClock c10_payload) =
      okProj VsdcPayload.taxblAmtB (transform_zoho_to_vsdc testClock c10_payload) := by
  have h := claim_C10 testClock c10_payload (build_invoice_payload testClock c10_invoice 202) rfl
  show (build_invoice_payload testClock c10_invoice 202).totAmt =
    (build_invoice_payload testClock c10_invoice 202).taxblAmtB
  rw [h.1.1, h.1.2]

/-! ## C1: what the validation actually rejects -/

/-- A line item the validator rejects: blank name/description, or a missing,
falsy or non-positive rate. -/
def item_invalid (it : ZohoLineItem) : Prop :=
  strip (itemNameOrDescription it) = "" ∨ it.rate = none ∨ it.rate.getD 0 ≤ 0

/-- The conditions under which validate_required_fields raises: blank
identifier, empty item list, or an invalid item. -/
def invoice_validation_fails (d : ZohoInvoice) : Prop :=
  strip (d.invoice_number.getD "") = "" ∨ d.line_items = [] ∨ ∃ it ∈ d.line_items, item_invalid it

/-- The item loop fails exactly on a list containing an invalid item. -/
theorem validate_items_error_iff (items : List ZohoLineItem) : ∀ idx,
    exOk (validate_items idx items) = false ↔ ∃ it ∈ items, item_invalid it := by
  induction items with
  | nil => intro idx; simp [validate_items, exOk]
  | cons it rest ih =>
    intro idx
    unfold validate_items
    split_ifs with h1 h2
    · constructor
      · intro _
        exact ⟨it, List.mem_cons_self it rest, Or.inl h1⟩
      · intro _
        rfl
    · constructor
      · intro _
        exact ⟨it, List.mem_cons_self it rest, Or.inr h2⟩
      · intro _
        rfl
    · constructor
      · intro hx
        obtain ⟨a, ha, hbad⟩ := (ih (idx + 1)).mp hx
        exact ⟨a, List.mem_cons_of_mem _ ha, hbad⟩
      · rintro ⟨a, ha, hbad⟩
        rcases List.mem_cons.mp ha with rfl | ha2
        · rcases hbad with hb | hb
          · exact absurd hb h1
          · exact absurd hb h2
        · exact (ih (idx + 1)).mpr ⟨a, ha2, hbad⟩

/-- validate_required_fields fails exactly on the failure predicate. -/
theorem validate_error_iff (p : ZohoPayload) :
    exOk (validate_required_fields p) = false ↔ invoice_validation_fails p.invoiceData := by
  unfold validate_required_fields invoice_validation_fails
  dsimp only
  split_ifs with h1 h2
  · constructor
    · intro _
      exact Or.inl h1
    · intro _
      rfl
  · constructor
    · intro _
      exact Or.inr (Or.inl h2)
    · intro _
      rfl
  · rw [validate_items_error_iff _ 0]
    constructor
    · intro hx
      exact Or.inr (Or.inr hx)
    · rintro (hx | hx | hx)
      · exact absurd hx h1
      · exact absurd hx h2
      · exact hx

/-- C1 counterexample: a document with a valid identifier, one item with a
positive rate and a name, but quantity -5, transforms successfully, although
the claim requires a ValidationError on every non-positive quantity. -/
theorem claim_C1_counterexample :
    cx_item.quantity = some (-5) ∧ (-5 : ℚ) ≤ 0 ∧
    exOk (transform_zoho_to_vsdc testClock cx_payload) = true :=
  ⟨rfl, by norm_num, rfl⟩

/-- C1 (amended): the invoice transformation fails exactly when the identifier
is blank, the item list is empty, an item has a blank name/description or a
missing/falsy/non-positive rate, or the resolved document number is 0 —
quantities are never validated; and the credit-note transformation performs no
such validation at all: with a parseable refund date and no invoices_credited
key it succeeds on any line items whatsoever. -/
theorem claim_C1_amended :
    (∀ clock p, exOk (transform_zoho_to_vsdc clock p) = false ↔
      (invoice_validation_fails p.invoiceData ∨
       extract_invoice_number_safely clock (strip (p.invoiceData.invoice_number.getD "")) = 0)) ∧
    (∀ clock cn, cn.invoices_credited = none →
      parse_ymd (cn.date.getD clock.ymdDash) ≠ none →
      exOk (transform_zoho_credit_note_to_vsdc clock (some cn)) = true) := by
  constructor
  · intro clock p
    unfold transform_zoho_to_vsdc
    cases hval : validate_required_fields p with
    | error e =>
      constructor
      · intro _
        exact Or.inl ((validate_error_iff p).mp (by rw [hval]; rfl))
      · intro _
        rfl
    | ok u =>
      dsimp only
      split_ifs with h0
      · constructor
        · intro _
          exact Or.inr h0
        · intro _
          rfl
      · constructor
        · intro hx
          exact absurd hx (by simp [exOk])
        · intro hrhs
          exfalso
          rcases hrhs with hf | hf
          · have hv2 := (validate_error_iff p).mpr hf
            rw [hval] at hv2
            simp [exOk] at hv2
          · exact h0 hf
  · intro clock cn hcred hdate
    cases hp : parse_ymd (cn.date.getD clock.ymdDash) with
    | none => exact absurd hp hdate
    | some ymd =>
      unfold transform_zoho_credit_note_to_vsdc
      simp only [Option.getD_some]
      rw [show credited_invoice_number cn = .ok "INV0000" by
        unfold credited_invoice_number; rw [hcred]]
      dsimp only
      rw [hp]
      rfl

/-- C1 witness: the credit note with an empty line-item list — which the
original claim says must fail — transforms successfully. -/
theorem claim_C1_witness :
    exOk (transform_zoho_credit_note_to_vsdc testClock (some cn_empty_items)) = true :=
  claim_C1_amended.2 testClock cn_empty_items rfl (by decide)

/-! ## C6: a rendering failure never downgrades a fiscal success -/

/-- C6: when the fiscal endpoint answers HTTP 200 with result code 000 and the
rendering step fails, both handlers still report HTTP 200, attach the
rendering error, and carry the fiscal response. -/
theorem claim_C6 : ∀ clock p q ebm e,
    ebm.resultCd = some "000" →
    (exOk (transform_zoho_to_vsdc clock p) = true →
      (handle_zoho_webhook clock p (.response 200 (some ebm)) (.failure e)).status = 200 ∧
      (handle_zoho_webhook clock p (.response 200 (some ebm)) (.failure e)).pdfError = some e ∧
      (handle_zoho_webhook clock p (.response 200 (some ebm)) (.failure e)).vsdcResponse = some ebm) ∧
    (exOk (transform_zoho_credit_note_to_vsdc clock q) = true →
      (handle_zoho_credit_note_webhook clock q (.response 200 (some ebm)) (.failure e)).status = 200 ∧
      (handle_zoho_credit_note_webhook clock q (.response 200 (some ebm)) (.failure e)).pdfError = some e ∧
      (handle_zoho_credit_note_webhook clock q (.response 200 (some ebm)) (.failure e)).vsdcResponse = some ebm) := by
  intro clock p q ebm e hcd
  obtain ⟨rcd, rmsg, rno⟩ := ebm
  have hr : rcd = some "000" := hcd
  subst hr
  constructor
  · intro hok
    unfold handle_zoho_webhook
    cases htr : transform_zoho_to_vsdc clock p with
    | error e2 =>
      rw [htr] at hok
      exact absurd hok (by simp [exOk])
    | ok v => exact ⟨rfl, rfl, rfl⟩
  · intro hok
    unfold handle_zoho_credit_note_webhook
    cases htr : transform_zoho_credit_note_to_vsdc clock q with
    | error e2 =>
      rw [htr] at hok
      exact absurd hok (by simp [exOk])
    | ok v => exact ⟨rfl, rfl, rfl⟩

/-- C6 witness: scenario 1 and the empty credit note, a successful fiscal
response, and a failing renderer still produce HTTP 200 with the error
attached. -/
theorem claim_C6_witness :
    (handle_zoho_webhook testClock c2_payload
      (.response 200 (some { resultCd := some "000", resultMsg := some "Success", rcptNo := some "1" }))
      (.failure "pdf failed")).status = 200 ∧
    (handle_zoho_webhook testClock c2_payload
      (.response 200 (some { resultCd := some "000", resultMsg := some "Success", rcptNo := some "1" }))
      (.failure "pdf failed")).pdfError = some "pdf failed" ∧
    (handle_zoho_credit_note_webhook testClock (some cn_empty_items)
      (.response 200 (some { resultCd := some "000", resultMsg := some "Success", rcptNo := some "1" }))
      (.failure "pdf failed")).status = 200 := by
  have h := claim_C6 testClock c2_payload (some cn_empty_items)
    { resultCd := some "000", resultMsg := some "Success", rcptNo := some "1" } "pdf failed" rfl
  exact ⟨(h.1 rfl).1, (h.1 rfl).2.1, (h.2 rfl).1⟩

end VsdcRelay
